import Mathlib

/-!
Shallow embedding of the StDb-Scout EMF hotspot engine (Python sources under
src/emf_hotspot and src/tools), together with theorems settling the claims
about it.  Python floats are modelled as real numbers; Python `%` on a
positive modulus is modelled by `fmod`; `float` → `int` truncation by
`truncInt`; numpy `arctan2` by the case-split definition `atan2`;
the float infinity initialiser is modelled by `Option` (none = infinity).
-/

noncomputable section

/-- Python float modulo for a positive modulus: `a % b = a - b*⌊a/b⌋`,
giving a result in `[0, b)` for `b > 0`. -/
def fmod (a b : ℝ) : ℝ := a - b * ⌊a / b⌋

/-- Python `int(x)` on a float: truncation toward zero. -/
def truncInt (x : ℝ) : ℤ := if 0 ≤ x then ⌊x⌋ else ⌈x⌉

/-- numpy/C `atan2(y, x)`: angle of the point `(x, y)` in `(-π, π]`. -/
def atan2 (y x : ℝ) : ℝ :=
  if 0 < x then Real.arctan (y / x)
  else if x < 0 then
    (if 0 ≤ y then Real.arctan (y / x) + Real.pi else Real.arctan (y / x) - Real.pi)
  else
    (if 0 < y then Real.pi / 2 else if y < 0 then -(Real.pi / 2) else 0)

/-- numpy `degrees`. -/
def rad2deg (r : ℝ) : ℝ := r * 180 / Real.pi

/-- Three-dimensional vector (numpy arrays of shape (3,) in the source). -/
structure Vec3 where
  x : ℝ
  y : ℝ
  z : ℝ

/-- Componentwise difference of 3D vectors. -/
def vsub (a b : Vec3) : Vec3 := ⟨a.x - b.x, a.y - b.y, a.z - b.z⟩

/-- Componentwise sum of 3D vectors. -/
def vadd (a b : Vec3) : Vec3 := ⟨a.x + b.x, a.y + b.y, a.z + b.z⟩

/-- Scalar multiple of a 3D vector. -/
def smul (c : ℝ) (a : Vec3) : Vec3 := ⟨c * a.x, c * a.y, c * a.z⟩

/-- numpy `dot` on 3D vectors. -/
def dot3 (a b : Vec3) : ℝ := a.x * b.x + a.y * b.y + a.z * b.z

/-- numpy `cross` on 3D vectors. -/
def cross3 (a b : Vec3) : Vec3 :=
  ⟨a.y * b.z - a.z * b.y, a.z * b.x - a.x * b.z, a.x * b.y - a.y * b.x⟩

/-- numpy `linalg.norm` on 3D vectors. -/
def norm3 (a : Vec3) : ℝ := Real.sqrt (a.x ^ 2 + a.y ^ 2 + a.z ^ 2)

/-- models.py: LV95Coordinate (e, n, h). -/
structure LV95Coordinate where
  e : ℝ
  n : ℝ
  h : ℝ

/-- models.py: LV95Coordinate.to_array. -/
def LV95Coordinate.toVec (c : LV95Coordinate) : Vec3 := ⟨c.e, c.n, c.h⟩

/-- config.py: AGW_LIMIT_VM. -/
def AGW_LIMIT_VM : ℝ := 5.0

/-- config.py: E_FIELD_CONSTANT (Swiss NISV practice). -/
def E_FIELD_CONSTANT : ℝ := 49.0

/-- config.py: MIN_DISTANCE_M. -/
def MIN_DISTANCE_M : ℝ := 0.1

/-- angles.py: calculate_azimuth.  `degrees(arctan2(dx, dy)) % 360`. -/
def calculate_azimuth (dx dy : ℝ) : ℝ := fmod (rad2deg (atan2 dx dy)) 360

/-- angles.py: calculate_elevation. -/
def calculate_elevation (horizontal_distance dz : ℝ) : ℝ :=
  if horizontal_distance < 0.001 then
    (if 0 < dz then 90 else if dz < 0 then -90 else 0)
  else
    rad2deg (atan2 dz horizontal_distance)

/-- angles.py: calculate_relative_angles.  Returns
`(distance_3d, rel_azimuth, rel_elevation)`. -/
def calculate_relative_angles (antenna_pos : LV95Coordinate) (point_pos : Vec3)
    (antenna_azimuth antenna_tilt : ℝ) : ℝ × ℝ × ℝ :=
  let dx := point_pos.x - antenna_pos.e
  let dy := point_pos.y - antenna_pos.n
  let dz := point_pos.z - antenna_pos.h
  let horizontal_distance := Real.sqrt (dx ^ 2 + dy ^ 2)
  let distance_3d := Real.sqrt (dx ^ 2 + dy ^ 2 + dz ^ 2)
  let point_azimuth := calculate_azimuth dx dy
  let rel_azimuth := fmod (point_azimuth - antenna_azimuth + 180) 360 - 180
  let point_elevation := calculate_elevation horizontal_distance dz
  let rel_elevation := point_elevation - antenna_tilt
  (distance_3d, rel_azimuth, rel_elevation)

/-- models.py: Antenna (the fields used by the physics path). -/
structure Antenna where
  id : ℤ
  position : LV95Coordinate
  azimuth_deg : ℝ
  tilt_deg : ℝ
  tilt_from_deg : ℝ
  tilt_to_deg : ℝ
  erp_watts : ℝ
  frequency_band : String
  antenna_type : String

/-- models.py: AntennaPattern (tabulated H and V gain curves). -/
structure AntennaPattern where
  antenna_type : String
  frequency_band : String
  h_angles : List ℝ
  h_gains : List ℝ
  v_angles : List ℝ
  v_gains : List ℝ

/-- numpy `np.interp` over sorted sample points: values below the first
sample clamp to the first value, values above the last sample clamp to the
last value, and values in between are linearly interpolated. -/
def interp (x : ℝ) : List ℝ → List ℝ → ℝ
  | x0 :: x1 :: xs, y0 :: y1 :: ys =>
    if x < x0 then y0
    else if x ≤ x1 then y0 + (y1 - y0) * (x - x0) / (x1 - x0)
    else interp x (x1 :: xs) (y1 :: ys)
  | [_], [y0] => y0
  | _, _ => 0

/-- numpy `np.max` over an array (the gain arrays are nonempty in practice). -/
def listMax : List ℝ → ℝ
  | [] => 0
  | a :: as => as.foldl max a

/-- models.py: AntennaPattern.get_h_attenuation. -/
def get_h_attenuation (p : AntennaPattern) (azimuth_rel : ℝ) : ℝ :=
  let h_angle := fmod azimuth_rel 360
  let h_gain := interp h_angle p.h_angles p.h_gains
  listMax p.h_gains - h_gain

/-- models.py: AntennaPattern.get_v_attenuation. -/
def get_v_attenuation (p : AntennaPattern) (elevation_rel : ℝ) : ℝ :=
  let v_angle := fmod elevation_rel 360
  let v_gain := interp v_angle p.v_angles p.v_gains
  listMax p.v_gains - v_gain

/-- The `(antenna_type, frequency_band) → AntennaPattern` dict, modelled as
an association list. -/
abbrev PatternMap := List ((String × String) × AntennaPattern)

/-- pattern_loader_ods.py: get_pattern_for_antenna — `patterns.get(key, None)`. -/
def get_pattern_for_antenna (patterns : PatternMap) (a_type f_band : String) :
    Option AntennaPattern :=
  (patterns.find? (fun kv => decide (kv.1 = (a_type, f_band)))).map (fun kv => kv.2)

/-- propagation.py: calculate_e_field_with_pattern. -/
def calculate_e_field_with_pattern (erp_watts distance_m h_attenuation_db
    v_attenuation_db building_attenuation_db : ℝ) : ℝ :=
  let d := if distance_m < MIN_DISTANCE_M then MIN_DISTANCE_M else distance_m
  if erp_watts ≤ 0 then 0
  else
    let gamma_h := if 0 < h_attenuation_db then (10 : ℝ) ^ (h_attenuation_db / 10) else 1
    let gamma_v := if 0 < v_attenuation_db then (10 : ℝ) ^ (v_attenuation_db / 10) else 1
    let gamma_building :=
      if 0 < building_attenuation_db then (10 : ℝ) ^ (building_attenuation_db / 10) else 1
    let gamma_total := gamma_h * gamma_v * gamma_building
    Real.sqrt (E_FIELD_CONSTANT * erp_watts / gamma_total) / d

/-- models.py: FacadePoint. -/
structure FacadePoint where
  building_id : String
  x : ℝ
  y : ℝ
  z : ℝ
  normal : Vec3

/-- models.py: FacadePoint.to_array. -/
def FacadePoint.toVec (p : FacadePoint) : Vec3 := ⟨p.x, p.y, p.z⟩

/-- models.py: AntennaContribution. -/
structure AntennaContribution where
  antenna_id : ℤ
  e_field_vm : ℝ
  critical_tilt_deg : ℝ
  distance_m : ℝ
  h_attenuation_db : ℝ
  v_attenuation_db : ℝ

/-- models.py: HotspotResult.  The four fields after `contributions` are
attributes attached dynamically (in Python) by the LOS pass; `none` models
an attribute that was never set. -/
structure HotspotResult where
  building_id : String
  x : ℝ
  y : ℝ
  z : ℝ
  e_field_vm : ℝ
  exceeds_limit : Bool
  contributions : List AntennaContribution
  has_los : Option Bool := none
  num_buildings_blocking : Option ℕ := none
  building_attenuation_db : Option ℝ := none
  blocking_building_ids : Option (List String) := none
  e_field_free_vm : Option ℝ := none

/-- summation.py lines 78-86: the tilt sweep list.  `int(...)` truncates;
when `tilt_from == tilt_to` the single nominal tilt is scanned, otherwise
`range(tilt_from, tilt_to + 1)`. -/
def tilt_range (a : Antenna) : List ℝ :=
  let tilt_from := truncInt a.tilt_from_deg
  let tilt_to := truncInt a.tilt_to_deg
  if tilt_from = tilt_to then [a.tilt_deg]
  else (List.range (tilt_to + 1 - tilt_from).toNat).map
    (fun i : ℕ => ((tilt_from + (i : ℤ) : ℤ) : ℝ))

/-- State of the worst-case tilt search loop (`min_v = none` models the
`float` infinity initialiser). -/
structure TiltState where
  min_v : Option ℝ
  tilt : ℝ
  dist : ℝ
  az : ℝ
  el : ℝ

/-- The vertical attenuation the tilt loop body reads for a given tilt
(summation.py lines 96-101). -/
def v_atten_at (a : Antenna) (pat : Option AntennaPattern) (point_pos : Vec3) (tilt : ℝ) : ℝ :=
  match pat with
  | some p =>
    get_v_attenuation p (calculate_relative_angles a.position point_pos a.azimuth_deg tilt).2.2
  | none => 0

/-- summation.py lines 88-109: one iteration of the tilt loop. -/
def tilt_scan_step (a : Antenna) (pat : Option AntennaPattern) (point_pos : Vec3)
    (s : TiltState) (tilt : ℝ) : TiltState :=
  let r := calculate_relative_angles a.position point_pos a.azimuth_deg tilt
  let v_atten := v_atten_at a pat point_pos tilt
  let better := match s.min_v with
    | none => true
    | some m => decide (v_atten < m)
  if better then ⟨some v_atten, tilt, r.1, r.2.1, r.2.2⟩ else s

/-- summation.py lines 70-137: the contribution of one antenna at one point,
given the already looked-up pattern.  `fin.min_v = none` (infinity) can only
remain after an empty tilt range, which violates the `tilt_from ≤ tilt_to`
invariant; that unreachable case is mapped to 0. -/
def antenna_contribution (a : Antenna) (pat : Option AntennaPattern) (point_pos : Vec3)
    (building_attenuation_db : ℝ) : AntennaContribution :=
  let init : TiltState := ⟨none, a.tilt_deg, 0, 0, 0⟩
  let fin := (tilt_range a).foldl (tilt_scan_step a pat point_pos) init
  let h_atten := match pat with
    | some p => get_h_attenuation p fin.az
    | none => 0
  let v_atten := match pat with
    | some _ => fin.min_v.getD 0
    | none => 0
  let e_field :=
    calculate_e_field_with_pattern a.erp_watts fin.dist h_atten v_atten building_attenuation_db
  ⟨a.id, e_field, fin.tilt, fin.dist, h_atten, v_atten⟩

/-- summation.py lines 62-68 plus 119-137: the per-antenna block including
the pattern lookup. -/
def contribution_for_antenna (patterns : PatternMap) (a : Antenna) (point_pos : Vec3)
    (building_attenuation_db : ℝ) : AntennaContribution :=
  antenna_contribution a (get_pattern_for_antenna patterns a.antenna_type a.frequency_band)
    point_pos building_attenuation_db

/-- summation.py: sum_e_fields, the power sum `sqrt (Σ Eᵢ²)`. -/
def sum_e_fields (e_fields : List ℝ) : ℝ :=
  Real.sqrt ((e_fields.map (fun e => e ^ 2)).sum)

/-- summation.py: calculate_total_e_field_at_point. -/
def calculate_total_e_field_at_point (point : FacadePoint) (antennas : List Antenna)
    (patterns : PatternMap) (building_attenuation_db : ℝ) : HotspotResult :=
  let contributions := antennas.map
    (fun a => contribution_for_antenna patterns a point.toVec building_attenuation_db)
  let e_total := sum_e_fields (contributions.map (fun c => c.e_field_vm))
  { building_id := point.building_id, x := point.x, y := point.y, z := point.z,
    e_field_vm := e_total, exceeds_limit := decide (AGW_LIMIT_VM ≤ e_total),
    contributions := contributions }

/-- summation.py: calculate_all_points (the serial loop, in input order). -/
def calculate_all_points (points : List FacadePoint) (antennas : List Antenna)
    (patterns : PatternMap) (building_attenuation_db : ℝ) : List HotspotResult :=
  points.map (fun p => calculate_total_e_field_at_point p antennas patterns building_attenuation_db)

/-- multiprocessing `Pool.map`: applies the pure worker to every element and
returns the results in input order (the documented Pool.map contract). -/
def pool_map (worker : FacadePoint → HotspotResult) (points : List FacadePoint) :
    List HotspotResult :=
  points.map worker

/-- summation_parallel.py: calculate_all_points_parallel.  `n_workers` is the
resolved worker count (in the source a `None` argument resolves to
`mp.cpu_count()` before the threshold test). -/
def calculate_all_points_parallel (points : List FacadePoint) (antennas : List Antenna)
    (patterns : PatternMap) (building_attenuation_db : ℝ) (n_workers : ℕ) : List HotspotResult :=
  if points.isEmpty then []
  else if points.length < n_workers * 10 then
    calculate_all_points points antennas patterns building_attenuation_db
  else
    pool_map (fun p => calculate_total_e_field_at_point p antennas patterns building_attenuation_db)
      points

/-- models.py: WallSurface (also reused for roof surfaces). -/
structure WallSurface where
  id : String
  vertices : List Vec3

/-- models.py: Building. -/
structure Building where
  id : String
  wall_surfaces : List WallSurface := []
  roof_surfaces : List WallSurface := []

/-- numpy `np.min` over an array (nonempty in practice). -/
def listMin : List ℝ → ℝ
  | [] => 0
  | a :: as => as.foldl min a

/-- facade_sampling.py: _calculate_normal — the cross product of the edges
from vertex 0 to vertex 1 and vertex 2, normalised; `None` when its norm is
below 1e-10. -/
def calculate_normal (vertices : List Vec3) : Option Vec3 :=
  if vertices.length < 3 then none
  else
    let v1 := vsub (vertices.getD 1 ⟨0, 0, 0⟩) (vertices.getD 0 ⟨0, 0, 0⟩)
    let v2 := vsub (vertices.getD 2 ⟨0, 0, 0⟩) (vertices.getD 0 ⟨0, 0, 0⟩)
    let normal := cross3 v1 v2
    let nrm := norm3 normal
    if nrm < 1e-10 then none
    else some (smul (1 / nrm) normal)

/-- facade_sampling.py: _create_local_coordinate_system. -/
def create_local_coordinate_system (normal : Vec3) : Vec3 × Vec3 :=
  let z_axis : Vec3 := ⟨0, 0, 1⟩
  let u0 := cross3 z_axis normal
  let u_norm := norm3 u0
  let u := if u_norm < 0.01 then (⟨1, 0, 0⟩ : Vec3) else smul (1 / u_norm) u0
  let v0 := cross3 normal u
  let v := smul (1 / norm3 v0) v0
  (u, v)

/-- facade_sampling.py: _point_in_polygon (ray casting); the edge pairs are
(p_i, p_j) with j always one behind i, starting from j = n - 1. -/
def point_in_polygon (point : ℝ × ℝ) (polygon : List (ℝ × ℝ)) : Bool :=
  let n := polygon.length
  let edges := polygon.zip (polygon.rotate (n - 1))
  edges.foldl
    (fun inside e =>
      let pa := e.1
      let pb := e.2
      if ((decide (point.2 < pa.2)) != (decide (point.2 < pb.2))) &&
         decide (point.1 < (pb.1 - pa.1) * (point.2 - pa.2) / (pb.2 - pa.2 + 1e-10) + pa.1)
      then !inside else inside)
    false

/-- numpy `np.arange(start, stop, step)` for a positive step: the values
`start + i*step` for `0 ≤ i < ⌈(stop - start)/step⌉`. -/
def arange (start stop step : ℝ) : List ℝ :=
  (List.range ⌈(stop - start) / step⌉₊).map (fun i => start + i * step)

/-- facade_sampling.py lines 42-78 (textually identical to lines 112-148):
project the vertices into the local (u, v) frame, grid the bounding box
starting at resolution/2, keep the cell centres passing the
point-in-polygon test, and map them back to world space. -/
def grid_sample_points (vertices : List Vec3) (normal : Vec3) (resolution : ℝ)
    (building_id : String) : List FacadePoint :=
  let uv := create_local_coordinate_system normal
  let u := uv.1
  let v := uv.2
  let origin := vertices.headD ⟨0, 0, 0⟩
  let local_coords := vertices.map (fun w => (dot3 (vsub w origin) u, dot3 (vsub w origin) v))
  let us := local_coords.map (fun c => c.1)
  let vs := local_coords.map (fun c => c.2)
  let u_coords := arange (listMin us + resolution / 2) (listMax us) resolution
  let v_coords := arange (listMin vs + resolution / 2) (listMax vs) resolution
  u_coords.flatMap (fun u_val =>
    (v_coords.filter (fun v_val => point_in_polygon (u_val, v_val) local_coords)).map
      (fun v_val =>
        let world := vadd origin (vadd (smul u_val u) (smul v_val v))
        { building_id := building_id, x := world.x, y := world.y, z := world.z,
          normal := normal }))

/-- facade_sampling.py: sample_facade_polygon (wall surfaces; a surface whose
unit normal has |z| > 0.7 is rejected as too horizontal). -/
def sample_facade_polygon (wall_surface : WallSurface) (resolution : ℝ)
    (building_id : String) : List FacadePoint :=
  if wall_surface.vertices.length < 3 then []
  else
    match calculate_normal wall_surface.vertices with
    | none => []
    | some normal =>
      if 0.7 < |normal.z| then []
      else grid_sample_points wall_surface.vertices normal resolution building_id

/-- facade_sampling.py: sample_roof_polygon (roof surfaces; deliberately no
verticality check — every roof-classified surface is sampled). -/
def sample_roof_polygon (roof_surface : WallSurface) (resolution : ℝ)
    (building_id : String) : List FacadePoint :=
  if roof_surface.vertices.length < 3 then []
  else
    match calculate_normal roof_surface.vertices with
    | none => []
    | some normal => grid_sample_points roof_surface.vertices normal resolution building_id

/-- line_of_sight.py: _ray_triangle_intersection (Möller–Trumbore, ε = 1e-6). -/
def ray_triangle_intersection (ray_origin ray_direction v0 v1 v2 : Vec3) : Option ℝ :=
  let epsilon : ℝ := 1e-6
  let edge1 := vsub v1 v0
  let edge2 := vsub v2 v0
  let h := cross3 ray_direction edge2
  let a := dot3 edge1 h
  if |a| < epsilon then none
  else
    let f := 1 / a
    let s := vsub ray_origin v0
    let u := f * dot3 s h
    if u < 0 ∨ 1 < u then none
    else
      let q := cross3 s edge1
      let v := f * dot3 ray_direction q
      if v < 0 ∨ 1 < u + v then none
      else
        let t := f * dot3 edge2 q
        if epsilon < t then some t else none

/-- line_of_sight.py: _ray_intersects_polygon_3d (fan triangulation from
vertex 0; a hit counts when `0 ≤ t ≤ ray_length`; `margin` is unused in the
3D path, mirroring the source). -/
def ray_intersects_polygon_3d (pStart pEnd : LV95Coordinate) (polygon_vertices : List Vec3)
    (_margin : ℝ) : Bool :=
  if polygon_vertices.length < 3 then false
  else
    let ray_origin := pStart.toVec
    let d0 := vsub pEnd.toVec ray_origin
    let ray_length := norm3 d0
    if ray_length < 0.01 then false
    else
      let ray_direction := smul (1 / ray_length) d0
      let v0 := polygon_vertices.headD ⟨0, 0, 0⟩
      (List.range (polygon_vertices.length - 2)).any (fun i =>
        let v1 := polygon_vertices.getD (i + 1) ⟨0, 0, 0⟩
        let v2 := polygon_vertices.getD (i + 2) ⟨0, 0, 0⟩
        match ray_triangle_intersection ray_origin ray_direction v0 v1 v2 with
        | some t => decide (0 ≤ t ∧ t ≤ ray_length)
        | none => false)

/-- line_of_sight.py: calculate_building_attenuation — a fixed 12 dB per
blocking building, accumulated over the list. -/
def calculate_building_attenuation (buildings : List Building) : ℝ :=
  if buildings.isEmpty then 0
  else buildings.foldl (fun total _ => total + 12.0) 0.0

/-- line_of_sight.py: check_line_of_sight_3d.  Returns
`(has_los, blocking_buildings, total_attenuation_db)`.  The early free-sight
return fires on the 2D (easting/northing) projected distance; a building
blocks when some wall with at least 3 vertices intersects the 3D segment. -/
def check_line_of_sight_3d (pStart pEnd : LV95Coordinate) (buildings : List Building)
    (margin : ℝ) : Bool × List Building × ℝ :=
  if buildings.isEmpty then (true, [], 0)
  else
    let total_dist := Real.sqrt ((pEnd.e - pStart.e) ^ 2 + (pEnd.n - pStart.n) ^ 2)
    if total_dist < 0.01 then (true, [], 0)
    else
      let blocking := buildings.filter (fun b =>
        !b.wall_surfaces.isEmpty &&
        b.wall_surfaces.any (fun wall =>
          decide (3 ≤ wall.vertices.length) &&
          ray_intersects_polygon_3d pStart pEnd wall.vertices margin))
      (blocking.isEmpty, blocking, calculate_building_attenuation blocking)

/-- line_of_sight.py lines 157-179: the body of the add_los_info_to_results
loop for one result (applied only to results exceeding the limit); the own
building of the sample point is excluded from the candidate blockers. -/
def add_los_info_point (antenna_los_pos : LV95Coordinate) (buildings : List Building)
    (r : HotspotResult) : HotspotResult :=
  let result_pos : LV95Coordinate := ⟨r.x, r.y, r.z⟩
  let buildings_to_check := buildings.filter (fun b => decide (b.id ≠ r.building_id))
  let los := check_line_of_sight_3d antenna_los_pos result_pos buildings_to_check 0.5
  { r with has_los := some los.1,
           num_buildings_blocking := some los.2.1.length,
           building_attenuation_db := some los.2.2,
           blocking_building_ids := some (los.2.1.map (fun b => b.id)) }

/-- line_of_sight.py: add_los_info_to_results — the source mutates the
results with `exceeds_limit` in place; modelled as a map leaving the other
results untouched. -/
def add_los_info_to_results (results : List HotspotResult)
    (antenna_position : LV95Coordinate) (buildings : List Building)
    (mast_height_offset : ℝ) : List HotspotResult :=
  let antenna_los_pos : LV95Coordinate :=
    ⟨antenna_position.e, antenna_position.n, antenna_position.h + mast_height_offset⟩
  results.map (fun r =>
    if r.exceeds_limit then add_los_info_point antenna_los_pos buildings r else r)

/-- main.py lines 363-379: apply the accumulated building attenuation to one
result — only results carrying a positive attenuation are rewritten. -/
def apply_building_attenuation_point (threshold_vm : ℝ) (r : HotspotResult) : HotspotResult :=
  match r.building_attenuation_db with
  | some att =>
    if 0 < att then
      let attenuation_factor := (10 : ℝ) ^ (-att / 20)
      let damped := r.e_field_vm * attenuation_factor
      { r with e_field_free_vm := some r.e_field_vm,
               e_field_vm := damped,
               exceeds_limit := decide (threshold_vm ≤ damped) }
    else r
  | none => r

/-- main.py analyze_site: the LOS pass — add_los_info_to_results followed by
the attenuation loop of lines 359-379. -/
def los_pass (results : List HotspotResult) (antenna_position : LV95Coordinate)
    (buildings : List Building) (mast_height_offset threshold_vm : ℝ) : List HotspotResult :=
  (add_los_info_to_results results antenna_position buildings mast_height_offset).map
    (apply_building_attenuation_point threshold_vm)

/-- validate_with_excel_attenuations.py lines 103-105: percentage deviation
between the computed and the expected total field. -/
def omen_deviation_pct (excel_vm python_vm : ℚ) : ℚ :=
  (python_vm - excel_vm) / excel_vm * 100

/-- validate_with_excel_attenuations.py line 118: the OK / DEVIATION status. -/
def omen_status (deviation_pct : ℚ) : String :=
  if |deviation_pct| < 5 then "OK" else "DEVIATION"

/-- standard_patterns.py: StandardPattern.azimuth_attenuation — the analytical
ITU-R/3GPP sector formula `A(φ) = -min(12·(φ/φ_3dB)², A_m)`, after
normalising φ into [-180, 180). -/
def standard_azimuth_attenuation (phi_3dB Am phi_deg : ℝ) : ℝ :=
  let phi := fmod (phi_deg + 180) 360 - 180
  let attenuation := -(min (12 * (phi / phi_3dB) ^ 2) Am)
  attenuation

/-- Concrete antenna whose `(antenna_type, frequency_band)` key is missing
from the pattern map used in the C5 counterexample and witness. -/
def antX : Antenna :=
  { id := 1, position := ⟨0, 0, 0⟩, azimuth_deg := 0, tilt_deg := 0,
    tilt_from_deg := 0, tilt_to_deg := 0, erp_watts := 100,
    frequency_band := "700-900", antenna_type := "HybridAIR3268" }

/-- Concrete antenna with a nondegenerate tilt interval for the C1 witness. -/
def antTilt : Antenna :=
  { id := 2, position := ⟨0, 0, 30⟩, azimuth_deg := 0, tilt_deg := -6,
    tilt_from_deg := -10, tilt_to_deg := -2, erp_watts := 200,
    frequency_band := "3600", antenna_type := "HybridAIR3268" }

/-- A building whose single wall crosses the vertical segment used in the
C10 witness. -/
def towerBuilding : Building :=
  { id := "B1",
    wall_surfaces := [⟨"W1", [⟨-1, -1, 2⟩, ⟨1, -1, 2⟩, ⟨1, 1, 2⟩, ⟨-1, 1, 2⟩]⟩] }

/-- Vertices whose first three are collinear although vertices 0, 1, 3 are
not (used for C7). -/
def collinearFirstVerts : List Vec3 := [⟨0, 0, 0⟩, ⟨1, 0, 0⟩, ⟨2, 0, 0⟩, ⟨0, 1, 0⟩]

/-- Horizontal square surface (unit normal (0, 0, 1)) for the C6 witness. -/
def wallVertsHoriz : List Vec3 := [⟨0, 0, 0⟩, ⟨1, 0, 0⟩, ⟨1, 1, 0⟩, ⟨0, 1, 0⟩]

/-- Concrete exceeding result for the C2 witness. -/
def hotR0 : HotspotResult :=
  { building_id := "B0", x := 0, y := 0, z := 0, e_field_vm := 10,
    exceeds_limit := true, contributions := [] }

theorem fmod_nonneg (a b : ℝ) (hb : 0 < b) : 0 ≤ fmod a b := by
  have h := Int.sub_floor_div_mul_nonneg a hb
  simpa [fmod, mul_comm] using h

theorem fmod_lt (a b : ℝ) (hb : 0 < b) : fmod a b < b := by
  have h := Int.sub_floor_div_mul_lt a hb
  simpa [fmod, mul_comm] using h

theorem sum_sq_eraseIdx_le (l : List ℝ) (i : ℕ) :
    ((l.eraseIdx i).map (fun e => e ^ 2)).sum ≤ (l.map (fun e => e ^ 2)).sum := by
  induction l generalizing i with
  | nil => simp
  | cons a l ih =>
    cases i with
    | zero =>
      simp only [List.eraseIdx_cons_zero, List.map_cons, List.sum_cons]
      exact le_add_of_nonneg_left (sq_nonneg a)
    | succ n => simpa using add_le_add_left (ih n) (a ^ 2)

/-- C3: removing any one contribution from the power sum never increases it:
`sum_e_fields` of a list with one element deleted is at most `sum_e_fields`
of the full list. -/
theorem C3_power_sum_monotone (l : List ℝ) (i : ℕ) (hi : i < l.length) :
    sum_e_fields (l.eraseIdx i) ≤ sum_e_fields l :=
  Real.sqrt_le_sqrt (sum_sq_eraseIdx_le l i)

theorem C3_power_sum_monotone_witness :
    0 < ([3, 4] : List ℝ).length ∧
      sum_e_fields (([3, 4] : List ℝ).eraseIdx 0) ≤ sum_e_fields ([3, 4] : List ℝ) :=
  ⟨by decide, C3_power_sum_monotone [3, 4] 0 (by decide)⟩

/-- C4: the parallel driver returns the same result list, in the same index
order, as the serial driver; in particular below the `n_workers × 10`
threshold it computes exactly the serial path. -/
theorem C4_parallel_matches_serial (points : List FacadePoint) (antennas : List Antenna)
    (patterns : PatternMap) (building_attenuation_db : ℝ) (n_workers : ℕ) :
    calculate_all_points_parallel points antennas patterns building_attenuation_db n_workers =
      calculate_all_points points antennas patterns building_attenuation_db ∧
    (points.length < n_workers * 10 →
      calculate_all_points_parallel points antennas patterns building_attenuation_db n_workers =
        calculate_all_points points antennas patterns building_attenuation_db) := by
  have he : calculate_all_points_parallel points antennas patterns building_attenuation_db
      n_workers = calculate_all_points points antennas patterns building_attenuation_db := by
    unfold calculate_all_points_parallel
    split
    · next hempty =>
      simp [calculate_all_points, List.isEmpty_iff.mp hempty]
    · split
      · rfl
      · rfl
  exact ⟨he, fun _ => he⟩

theorem C4_parallel_matches_serial_witness :
    calculate_all_points_parallel [] [] [] 0 4 = calculate_all_points [] [] [] 0 ∧
    (([] : List FacadePoint).length < 4 * 10 →
      calculate_all_points_parallel [] [] [] 0 4 = calculate_all_points [] [] [] 0) :=
  C4_parallel_matches_serial [] [] [] 0 4

/-- C9 counterexample: at a 7 % deviation the validator reports DEVIATION,
although the claimed rule (|pct| ≤ 10 % default tolerance ⇒ OK) would
report OK — the source compares `abs(pct) < 5`, not `≤ 10`. -/
theorem C9_counterexample :
    omen_status (omen_deviation_pct 1 (107 / 100)) = "DEVIATION" ∧
      |omen_deviation_pct 1 (107 / 100)| ≤ 10 := by
  constructor
  · norm_num [omen_status, omen_deviation_pct]
  · norm_num [omen_deviation_pct]

/-- C9 (amended): the validator reports OK exactly when the absolute
percentage deviation is strictly below the fixed 5 % threshold, and
DEVIATION otherwise. -/
theorem C9_status_iff (excel_vm python_vm : ℚ) :
    omen_status (omen_deviation_pct excel_vm python_vm) = "OK" ↔
      |omen_deviation_pct excel_vm python_vm| < 5 := by
  unfold omen_status
  split
  · next hlt => exact iff_of_true rfl hlt
  · next hge => exact iff_of_false (by decide) hge

/-- C10: when the horizontal (easting/northing) projected distance between
the endpoints is below 0.01 m, the LOS check returns free sight with no
blockers and 0 dB attenuation, whatever the buildings contain. -/
theorem C10_short_horizontal_segment_free_sight (pStart pEnd : LV95Coordinate)
    (buildings : List Building) (margin : ℝ)
    (h : Real.sqrt ((pEnd.e - pStart.e) ^ 2 + (pEnd.n - pStart.n) ^ 2) < 0.01) :
    check_line_of_sight_3d pStart pEnd buildings margin = (true, [], 0) := by
  by_cases hb : buildings.isEmpty
  · simp [check_line_of_sight_3d, hb]
  · simp [check_line_of_sight_3d, hb, h]

theorem C10_short_horizontal_segment_free_sight_witness :
    Real.sqrt (((0 : ℝ) - 0) ^ 2 + ((0 : ℝ) - 0) ^ 2) < 0.01 ∧
      check_line_of_sight_3d ⟨0, 0, 0⟩ ⟨0, 0, 5⟩ [towerBuilding] 0.5 = (true, [], 0) := by
  have h : Real.sqrt (((0 : ℝ) - 0) ^ 2 + ((0 : ℝ) - 0) ^ 2) < 0.01 := by
    simp [Real.sqrt_zero]
    norm_num
  exact ⟨h, C10_short_horizontal_segment_free_sight ⟨0, 0, 0⟩ ⟨0, 0, 5⟩ [towerBuilding] 0.5 h⟩

/-- C5 counterexample: with an empty pattern map the lookup yields `none`
and the summation computes the contribution with zero horizontal and zero
vertical attenuation, while the analytical sector pattern named by the
claim is nonzero (−12 dB at the 3 dB beamwidth) — no fallback happens. -/
theorem C5_counterexample :
    get_pattern_for_antenna [] antX.antenna_type antX.frequency_band = none ∧
    (contribution_for_antenna [] antX ⟨0, 100, 0⟩ 0).h_attenuation_db = 0 ∧
    (contribution_for_antenna [] antX ⟨0, 100, 0⟩ 0).v_attenuation_db = 0 ∧
    standard_azimuth_attenuation 65 25 65 = -12 := by
  refine ⟨rfl, rfl, rfl, ?_⟩
  have hfl : ⌊(245 : ℝ) / 360⌋ = 0 := by
    rw [Int.floor_eq_zero_iff]
    constructor <;> norm_num
  unfold standard_azimuth_attenuation fmod
  norm_num [hfl]

/-- C5 (amended): whenever the pattern map has no entry for the antenna key,
the lookup returns `none` and the per-antenna contribution is computed with
zero horizontal and zero vertical attenuation (no analytical fallback, no
flag). -/
theorem C5_missing_pattern_zero_attenuation (patterns : PatternMap) (a : Antenna)
    (point_pos : Vec3) (building_attenuation_db : ℝ)
    (h : get_pattern_for_antenna patterns a.antenna_type a.frequency_band = none) :
    (contribution_for_antenna patterns a point_pos building_attenuation_db).h_attenuation_db = 0 ∧
    (contribution_for_antenna patterns a point_pos building_attenuation_db).v_attenuation_db
      = 0 := by
  unfold contribution_for_antenna
  rw [h]
  exact ⟨rfl, rfl⟩

theorem C5_missing_pattern_zero_attenuation_witness :
    (contribution_for_antenna [] antX ⟨50, 50, 10⟩ 3).h_attenuation_db = 0 ∧
    (contribution_for_antenna [] antX ⟨50, 50, 10⟩ 3).v_attenuation_db = 0 :=
  C5_missing_pattern_zero_attenuation [] antX ⟨50, 50, 10⟩ 3 rfl

/-- C7: _calculate_normal inspects only vertices 0, 1 and 2 — on a surface
whose first three vertices are collinear it returns `none` (the surface is
skipped) even though the triple of vertices 0, 1, 3 is non-collinear, as
its nonzero cross product witnesses. -/
theorem C7_first_three_collinear_fails :
    calculate_normal collinearFirstVerts = none ∧
    cross3 (vsub ⟨1, 0, 0⟩ ⟨0, 0, 0⟩) (vsub ⟨0, 1, 0⟩ ⟨0, 0, 0⟩) = (⟨0, 0, 1⟩ : Vec3) := by
  constructor
  · unfold calculate_normal collinearFirstVerts
    norm_num [vsub, cross3, norm3, Real.sqrt_zero]
  · unfold vsub cross3
    norm_num

/-- C8 (amended): the relative azimuth computed by calculate_relative_angles
always lies in the half-open interval [-180, 180). -/
theorem C8_rel_azimuth_range (antenna_pos : LV95Coordinate) (point_pos : Vec3)
    (antenna_azimuth antenna_tilt : ℝ) :
    -180 ≤ (calculate_relative_angles antenna_pos point_pos antenna_azimuth antenna_tilt).2.1 ∧
      (calculate_relative_angles antenna_pos point_pos antenna_azimuth antenna_tilt).2.1
        < 180 := by
  have hproj : (calculate_relative_angles antenna_pos point_pos antenna_azimuth antenna_tilt).2.1
      = fmod (calculate_azimuth (point_pos.x - antenna_pos.e) (point_pos.y - antenna_pos.n)
          - antenna_azimuth + 180) 360 - 180 := rfl
  rw [hproj]
  constructor
  · have h := fmod_nonneg (calculate_azimuth (point_pos.x - antenna_pos.e)
      (point_pos.y - antenna_pos.n) - antenna_azimuth + 180) 360 (by norm_num)
    linarith
  · have h := fmod_lt (calculate_azimuth (point_pos.x - antenna_pos.e)
      (point_pos.y - antenna_pos.n) - antenna_azimuth + 180) 360 (by norm_num)
    linarith

/-- C8 counterexample: for a target exactly opposite the boresight (antenna
azimuth 0°, target due south) the relative azimuth evaluates to -180, which
lies outside the claimed interval (-180, 180] — in particular it is not the
claimed +180. -/
theorem C8_counterexample :
    (calculate_relative_angles ⟨0, 0, 0⟩ ⟨0, -100, 0⟩ 0 0).2.1 = -180 ∧
      ¬ (-180 < (calculate_relative_angles ⟨0, 0, 0⟩ ⟨0, -100, 0⟩ 0 0).2.1 ∧
         (calculate_relative_angles ⟨0, 0, 0⟩ ⟨0, -100, 0⟩ 0 0).2.1 ≤ 180) := by
  have hatan : atan2 (0 : ℝ) (-100) = Real.pi := by
    unfold atan2
    rw [if_neg (by norm_num), if_pos (by norm_num), if_pos (by norm_num)]
    norm_num [Real.arctan_zero]
  have hdeg : rad2deg Real.pi = 180 := by
    unfold rad2deg
    rw [mul_comm, mul_div_assoc, div_self Real.pi_ne_zero, mul_one]
  have hfl0 : ⌊(180 : ℝ) / 360⌋ = 0 := by
    rw [Int.floor_eq_zero_iff]
    constructor <;> norm_num
  have hpa : calculate_azimuth ((0 : ℝ) - 0) ((-100 : ℝ) - 0) = 180 := by
    have h0 : ((0 : ℝ) - 0) = 0 := by norm_num
    have h1 : ((-100 : ℝ) - 0) = -100 := by norm_num
    unfold calculate_azimuth
    rw [h0, h1, hatan, hdeg]
    unfold fmod
    rw [hfl0]
    norm_num
  have hval : (calculate_relative_angles ⟨0, 0, 0⟩ ⟨0, -100, 0⟩ 0 0).2.1
      = fmod (calculate_azimuth ((0 : ℝ) - 0) ((-100 : ℝ) - 0) - 0 + 180) 360 - 180 := rfl
  have hfl1 : ⌊(180 - 0 + 180 : ℝ) / 360⌋ = 1 := by
    have : ((180 - 0 + 180 : ℝ) / 360) = 1 := by norm_num
    rw [this, Int.floor_one]
  have hres : (calculate_relative_angles ⟨0, 0, 0⟩ ⟨0, -100, 0⟩ 0 0).2.1 = -180 := by
    rw [hval, hpa]
    unfold fmod
    rw [hfl1]
    norm_num
  refine ⟨hres, ?_⟩
  rw [hres]
  intro hcontra
  exact absurd hcontra.1 (by norm_num)

/-- C6: a wall-classified surface yields sample points only when its unit
normal has |z| ≤ 0.7 — above 0.7 the wall sampler returns no points — while
a roof-classified surface is fed to the very same grid construction with no
verticality test at all. -/
theorem C6_wall_gated_roof_unconditional (s : WallSurface) (resolution : ℝ)
    (building_id : String) (nrm : Vec3)
    (hn : calculate_normal s.vertices = some nrm) :
    (0.7 < |nrm.z| → sample_facade_polygon s resolution building_id = []) ∧
    (¬ 0.7 < |nrm.z| →
      sample_facade_polygon s resolution building_id =
        grid_sample_points s.vertices nrm resolution building_id) ∧
    sample_roof_polygon s resolution building_id =
      grid_sample_points s.vertices nrm resolution building_id := by
  have hlen : ¬ s.vertices.length < 3 := by
    intro hl
    unfold calculate_normal at hn
    rw [if_pos hl] at hn
    exact Option.noConfusion hn
  refine ⟨?_, ?_, ?_⟩
  · intro hz
    simp only [sample_facade_polygon, if_neg hlen, hn]
    rw [if_pos hz]
  · intro hz
    simp only [sample_facade_polygon, if_neg hlen, hn]
    rw [if_neg hz]
  · simp only [sample_roof_polygon, if_neg hlen, hn]

theorem C6_wall_gated_roof_unconditional_witness :
    calculate_normal wallVertsHoriz = some ⟨0, 0, 1⟩ ∧
    ((0.7 < |(⟨0, 0, 1⟩ : Vec3).z| →
        sample_facade_polygon ⟨"W", wallVertsHoriz⟩ 1 "B" = []) ∧
     (¬ 0.7 < |(⟨0, 0, 1⟩ : Vec3).z| →
        sample_facade_polygon ⟨"W", wallVertsHoriz⟩ 1 "B" =
          grid_sample_points wallVertsHoriz ⟨0, 0, 1⟩ 1 "B") ∧
     sample_roof_polygon ⟨"W", wallVertsHoriz⟩ 1 "B" =
       grid_sample_points wallVertsHoriz ⟨0, 0, 1⟩ 1 "B") := by
  have hn : calculate_normal wallVertsHoriz = some ⟨0, 0, 1⟩ := by
    unfold calculate_normal wallVertsHoriz
    norm_num [vsub, cross3, norm3, smul, Real.sqrt_one]
  exact ⟨hn, C6_wall_gated_roof_unconditional ⟨"W", wallVertsHoriz⟩ 1 "B" ⟨0, 0, 1⟩ hn⟩

theorem tilt_scan_fold_invariant (a : Antenna) (pat : Option AntennaPattern) (point_pos : Vec3)
    (ts : List ℝ) (s : TiltState)
    (hs : s.min_v = some (v_atten_at a pat point_pos s.tilt)) :
    (ts.foldl (tilt_scan_step a pat point_pos) s).min_v
      = some (v_atten_at a pat point_pos (ts.foldl (tilt_scan_step a pat point_pos) s).tilt) ∧
    ((ts.foldl (tilt_scan_step a pat point_pos) s).tilt = s.tilt ∨
      (ts.foldl (tilt_scan_step a pat point_pos) s).tilt ∈ ts) ∧
    v_atten_at a pat point_pos (ts.foldl (tilt_scan_step a pat point_pos) s).tilt
      ≤ v_atten_at a pat point_pos s.tilt ∧
    ∀ t ∈ ts, v_atten_at a pat point_pos (ts.foldl (tilt_scan_step a pat point_pos) s).tilt
      ≤ v_atten_at a pat point_pos t := by
  induction ts generalizing s with
  | nil =>
    refine ⟨hs, Or.inl rfl, le_refl _, ?_⟩
    intro t ht
    cases ht
  | cons t0 ts ih =>
    have hstep : tilt_scan_step a pat point_pos s t0 =
        (if v_atten_at a pat point_pos t0 < v_atten_at a pat point_pos s.tilt
         then (⟨some (v_atten_at a pat point_pos t0), t0,
               (calculate_relative_angles a.position point_pos a.azimuth_deg t0).1,
               (calculate_relative_angles a.position point_pos a.azimuth_deg t0).2.1,
               (calculate_relative_angles a.position point_pos a.azimuth_deg t0).2.2⟩ : TiltState)
         else s) := by
      unfold tilt_scan_step
      rw [hs]
      by_cases hlt : v_atten_at a pat point_pos t0 < v_atten_at a pat point_pos s.tilt
      · rw [if_pos hlt]
        simp [hlt]
      · rw [if_neg hlt]
        simp [hlt]
    rw [List.foldl_cons, hstep]
    by_cases hlt : v_atten_at a pat point_pos t0 < v_atten_at a pat point_pos s.tilt
    · rw [if_pos hlt]
      obtain ⟨h1, h2, h3, h4⟩ := ih (⟨some (v_atten_at a pat point_pos t0), t0,
        (calculate_relative_angles a.position point_pos a.azimuth_deg t0).1,
        (calculate_relative_angles a.position point_pos a.azimuth_deg t0).2.1,
        (calculate_relative_angles a.position point_pos a.azimuth_deg t0).2.2⟩ : TiltState) rfl
    -- h3 is relative to the fresh state whose tilt is t0
      refine ⟨h1, ?_, ?_, ?_⟩
      · rcases h2 with h2 | h2
        · exact Or.inr (h2 ▸ List.mem_cons_self t0 ts)
        · exact Or.inr (List.mem_cons_of_mem t0 h2)
      · exact le_trans h3 (le_of_lt hlt)
      · intro t ht
        rcases List.mem_cons.mp ht with rfl | ht
        · exact h3
        · exact h4 t ht
    · rw [if_neg hlt]
      obtain ⟨h1, h2, h3, h4⟩ := ih s hs
      refine ⟨h1, ?_, h3, ?_⟩
      · rcases h2 with h2 | h2
        · exact Or.inl h2
        · exact Or.inr (List.mem_cons_of_mem t0 h2)
      · intro t ht
        rcases List.mem_cons.mp ht with rfl | ht
        · exact le_trans h3 (not_lt.mp hlt)
        · exact h4 t ht

theorem tilt_range_map_mem (tf tt : ℤ) (x : ℝ) :
    x ∈ (List.range (tt + 1 - tf).toNat).map (fun i : ℕ => ((tf + (i : ℤ) : ℤ) : ℝ)) ↔
      ∃ k : ℤ, tf ≤ k ∧ k ≤ tt ∧ x = (k : ℝ) := by
  rw [List.mem_map]
  constructor
  · rintro ⟨i, hi, hx⟩
    rw [List.mem_range] at hi
    refine ⟨tf + (i : ℤ), by omega, by omega, hx.symm⟩
  · rintro ⟨k, h1, h2, rfl⟩
    refine ⟨(k - tf).toNat, ?_, ?_⟩
    · rw [List.mem_range]
      omega
    · have hk : tf + (((k - tf).toNat : ℤ)) = k := by omega
      rw [hk]

/-- C1: the tilt search enumerates the integer set {tilt_from, …, tilt_to}
(the single nominal tilt when tilt_from = tilt_to); the reported critical
tilt is a member of that set, the reported v_attenuation_db is its vertical
attenuation, and that attenuation is minimal over the whole set. -/
theorem C1_critical_tilt_minimises (a : Antenna) (pat : Option AntennaPattern)
    (point_pos : Vec3) (building_attenuation_db : ℝ)
    (h : truncInt a.tilt_from_deg ≤ truncInt a.tilt_to_deg) :
    (antenna_contribution a pat point_pos building_attenuation_db).critical_tilt_deg
        ∈ tilt_range a ∧
    (∀ t ∈ tilt_range a,
      v_atten_at a pat point_pos
          (antenna_contribution a pat point_pos building_attenuation_db).critical_tilt_deg
        ≤ v_atten_at a pat point_pos t) ∧
    (antenna_contribution a pat point_pos building_attenuation_db).v_attenuation_db
      = v_atten_at a pat point_pos
          (antenna_contribution a pat point_pos building_attenuation_db).critical_tilt_deg ∧
    (truncInt a.tilt_from_deg = truncInt a.tilt_to_deg → tilt_range a = [a.tilt_deg]) ∧
    (truncInt a.tilt_from_deg ≠ truncInt a.tilt_to_deg →
      ∀ x : ℝ, x ∈ tilt_range a ↔
        ∃ k : ℤ, truncInt a.tilt_from_deg ≤ k ∧ k ≤ truncInt a.tilt_to_deg ∧ x = (k : ℝ)) := by
  obtain ⟨t0, rest, hdecomp⟩ : ∃ t0 rest, tilt_range a = t0 :: rest := by
    unfold tilt_range
    by_cases heq : truncInt a.tilt_from_deg = truncInt a.tilt_to_deg
    · rw [if_pos heq]
      exact ⟨a.tilt_deg, [], rfl⟩
    · rw [if_neg heq]
      have hlt : truncInt a.tilt_from_deg < truncInt a.tilt_to_deg := lt_of_le_of_ne h heq
      have hpos : 0 < (truncInt a.tilt_to_deg + 1 - truncInt a.tilt_from_deg).toNat := by omega
      obtain ⟨n, hn⟩ : ∃ n, (truncInt a.tilt_to_deg + 1 - truncInt a.tilt_from_deg).toNat
          = n + 1 := ⟨_, (Nat.succ_pred_eq_of_pos hpos).symm⟩
      rw [hn]
      exact ⟨_, _, by rw [List.range_succ_eq_map, List.map_cons]⟩
  have hfold : (antenna_contribution a pat point_pos building_attenuation_db).critical_tilt_deg
      = ((tilt_range a).foldl (tilt_scan_step a pat point_pos)
          (⟨none, a.tilt_deg, 0, 0, 0⟩ : TiltState)).tilt := rfl
  have hstep0 : tilt_scan_step a pat point_pos (⟨none, a.tilt_deg, 0, 0, 0⟩ : TiltState) t0
      = (⟨some (v_atten_at a pat point_pos t0), t0,
          (calculate_relative_angles a.position point_pos a.azimuth_deg t0).1,
          (calculate_relative_angles a.position point_pos a.azimuth_deg t0).2.1,
          (calculate_relative_angles a.position point_pos a.azimuth_deg t0).2.2⟩ : TiltState) :=
    rfl
  obtain ⟨h1, h2, h3, h4⟩ := tilt_scan_fold_invariant a pat point_pos rest
    (⟨some (v_atten_at a pat point_pos t0), t0,
      (calculate_relative_angles a.position point_pos a.azimuth_deg t0).1,
      (calculate_relative_angles a.position point_pos a.azimuth_deg t0).2.1,
      (calculate_relative_angles a.position point_pos a.azimuth_deg t0).2.2⟩ : TiltState) rfl
  have hfold2 : ((tilt_range a).foldl (tilt_scan_step a pat point_pos)
      (⟨none, a.tilt_deg, 0, 0, 0⟩ : TiltState))
      = rest.foldl (tilt_scan_step a pat point_pos)
          (⟨some (v_atten_at a pat point_pos t0), t0,
            (calculate_relative_angles a.position point_pos a.azimuth_deg t0).1,
            (calculate_relative_angles a.position point_pos a.azimuth_deg t0).2.1,
            (calculate_relative_angles a.position point_pos a.azimuth_deg t0).2.2⟩ : TiltState) := by
    rw [hdecomp, List.foldl_cons, hstep0]
  refine ⟨?_, ?_, ?_, ?_, ?_⟩
  · rw [hfold, hfold2, hdecomp]
    rcases h2 with h2 | h2
    · exact h2 ▸ List.mem_cons_self t0 rest
    · exact List.mem_cons_of_mem t0 h2
  · intro t ht
    rw [hdecomp] at ht
    rw [hfold, hfold2]
    rcases List.mem_cons.mp ht with rfl | ht
    · exact h3
    · exact h4 t ht
  · cases pat with
    | some p =>
      have hv : (antenna_contribution a (some p) point_pos
            building_attenuation_db).v_attenuation_db
          = (((tilt_range a).foldl (tilt_scan_step a (some p) point_pos)
              (⟨none, a.tilt_deg, 0, 0, 0⟩ : TiltState)).min_v).getD 0 := rfl
      rw [hv, hfold, hfold2, h1, Option.getD_some]
    | none =>
      have hv : (antenna_contribution a none point_pos
            building_attenuation_db).v_attenuation_db = 0 := rfl
      rw [hv]
      rfl
  · intro heq
    unfold tilt_range
    rw [if_pos heq]
  · intro hne
    intro x
    unfold tilt_range
    rw [if_neg hne]
    exact tilt_range_map_mem (truncInt a.tilt_from_deg) (truncInt a.tilt_to_deg) x

theorem C1_critical_tilt_minimises_witness :
    truncInt antTilt.tilt_from_deg ≤ truncInt antTilt.tilt_to_deg ∧
    ((antenna_contribution antTilt none ⟨0, 50, 0⟩ 0).critical_tilt_deg ∈ tilt_range antTilt ∧
     (∀ t ∈ tilt_range antTilt,
       v_atten_at antTilt none ⟨0, 50, 0⟩
           (antenna_contribution antTilt none ⟨0, 50, 0⟩ 0).critical_tilt_deg
         ≤ v_atten_at antTilt none ⟨0, 50, 0⟩ t) ∧
     (antenna_contribution antTilt none ⟨0, 50, 0⟩ 0).v_attenuation_db
       = v_atten_at antTilt none ⟨0, 50, 0⟩
           (antenna_contribution antTilt none ⟨0, 50, 0⟩ 0).critical_tilt_deg ∧
     (truncInt antTilt.tilt_from_deg = truncInt antTilt.tilt_to_deg →
       tilt_range antTilt = [antTilt.tilt_deg]) ∧
     (truncInt antTilt.tilt_from_deg ≠ truncInt antTilt.tilt_to_deg →
       ∀ x : ℝ, x ∈ tilt_range antTilt ↔
         ∃ k : ℤ, truncInt antTilt.tilt_from_deg ≤ k ∧ k ≤ truncInt antTilt.tilt_to_deg ∧
           x = (k : ℝ))) := by
  have hfrom : truncInt antTilt.tilt_from_deg = -10 := by
    unfold truncInt antTilt
    rw [if_neg (by norm_num)]
    have : ((-10 : ℝ)) = ((-10 : ℤ) : ℝ) := by norm_num
    rw [this, Int.ceil_intCast]
  have hto : truncInt antTilt.tilt_to_deg = -2 := by
    unfold truncInt antTilt
    rw [if_neg (by norm_num)]
    have : ((-2 : ℝ)) = ((-2 : ℤ) : ℝ) := by norm_num
    rw [this, Int.ceil_intCast]
  have h : truncInt antTilt.tilt_from_deg ≤ truncInt antTilt.tilt_to_deg := by
    rw [hfrom, hto]
    norm_num
  exact ⟨h, C1_critical_tilt_minimises antTilt none ⟨0, 50, 0⟩ 0 h⟩

theorem foldl_add_twelve (bs : List Building) (c : ℝ) :
    bs.foldl (fun total _ => total + 12.0) c = c + 12 * bs.length := by
  induction bs generalizing c with
  | nil => simp
  | cons b bs ih =>
    rw [List.foldl_cons, ih]
    simp only [List.length_cons]
    push_cast
    ring

theorem calculate_building_attenuation_eq (bs : List Building) :
    calculate_building_attenuation bs = 12 * (bs.length : ℝ) := by
  unfold calculate_building_attenuation
  split
  · next hemp => simp [List.isEmpty_iff.mp hemp]
  · rw [foldl_add_twelve]
    norm_num

theorem check_los_attenuation_eq (pStart pEnd : LV95Coordinate) (buildings : List Building)
    (margin : ℝ) :
    (check_line_of_sight_3d pStart pEnd buildings margin).2.2
      = 12 * ((check_line_of_sight_3d pStart pEnd buildings margin).2.1.length : ℝ) := by
  unfold check_line_of_sight_3d
  split
  · simp
  · dsimp only
    split
    · simp
    · simpa using calculate_building_attenuation_eq _

theorem los_pass_point_spec (pos : LV95Coordinate) (buildings : List Building)
    (threshold_vm : ℝ) (r : HotspotResult) :
    (apply_building_attenuation_point threshold_vm
        (add_los_info_point pos buildings r)).building_attenuation_db
      = some (12 * (((check_line_of_sight_3d pos ⟨r.x, r.y, r.z⟩
          (buildings.filter (fun b => decide (b.id ≠ r.building_id)))
            0.5).2.1.length : ℝ))) ∧
    ((check_line_of_sight_3d pos ⟨r.x, r.y, r.z⟩
        (buildings.filter (fun b => decide (b.id ≠ r.building_id))) 0.5).2.1.length = 0 →
      (apply_building_attenuation_point threshold_vm
          (add_los_info_point pos buildings r)).e_field_vm = r.e_field_vm ∧
      (apply_building_attenuation_point threshold_vm
          (add_los_info_point pos buildings r)).exceeds_limit = r.exceeds_limit) ∧
    (0 < (check_line_of_sight_3d pos ⟨r.x, r.y, r.z⟩
        (buildings.filter (fun b => decide (b.id ≠ r.building_id))) 0.5).2.1.length →
      (apply_building_attenuation_point threshold_vm
          (add_los_info_point pos buildings r)).e_field_free_vm = some r.e_field_vm ∧
      (apply_building_attenuation_point threshold_vm
          (add_los_info_point pos buildings r)).e_field_vm
        = r.e_field_vm * (10 : ℝ) ^ (-(12 * (((check_line_of_sight_3d pos ⟨r.x, r.y, r.z⟩
            (buildings.filter (fun b => decide (b.id ≠ r.building_id)))
              0.5).2.1.length : ℝ))) / 20) ∧
      ((apply_building_attenuation_point threshold_vm
          (add_los_info_point pos buildings r)).exceeds_limit = true ↔
        threshold_vm ≤ (apply_building_attenuation_point threshold_vm
          (add_los_info_point pos buildings r)).e_field_vm)) := by
  have hatt := check_los_attenuation_eq pos ⟨r.x, r.y, r.z⟩
    (buildings.filter (fun b => decide (b.id ≠ r.building_id))) 0.5
  have hgr : add_los_info_point pos buildings r = { r with
      has_los := some (check_line_of_sight_3d pos ⟨r.x, r.y, r.z⟩
        (buildings.filter (fun b => decide (b.id ≠ r.building_id))) 0.5).1,
      num_buildings_blocking := some (check_line_of_sight_3d pos ⟨r.x, r.y, r.z⟩
        (buildings.filter (fun b => decide (b.id ≠ r.building_id))) 0.5).2.1.length,
      building_attenuation_db := some (check_line_of_sight_3d pos ⟨r.x, r.y, r.z⟩
        (buildings.filter (fun b => decide (b.id ≠ r.building_id))) 0.5).2.2,
      blocking_building_ids := some ((check_line_of_sight_3d pos ⟨r.x, r.y, r.z⟩
        (buildings.filter (fun b => decide (b.id ≠ r.building_id))) 0.5).2.1.map
          (fun b => b.id)) } := rfl
  rw [hgr]
  by_cases hpos : 0 < (check_line_of_sight_3d pos ⟨r.x, r.y, r.z⟩
      (buildings.filter (fun b => decide (b.id ≠ r.building_id))) 0.5).2.2
  · have happ : apply_building_attenuation_point threshold_vm ({ r with
        has_los := some (check_line_of_sight_3d pos ⟨r.x, r.y, r.z⟩
          (buildings.filter (fun b => decide (b.id ≠ r.building_id))) 0.5).1,
        num_buildings_blocking := some (check_line_of_sight_3d pos ⟨r.x, r.y, r.z⟩
          (buildings.filter (fun b => decide (b.id ≠ r.building_id))) 0.5).2.1.length,
        building_attenuation_db := some (check_line_of_sight_3d pos ⟨r.x, r.y, r.z⟩
          (buildings.filter (fun b => decide (b.id ≠ r.building_id))) 0.5).2.2,
        blocking_building_ids := some ((check_line_of_sight_3d pos ⟨r.x, r.y, r.z⟩
          (buildings.filter (fun b => decide (b.id ≠ r.building_id))) 0.5).2.1.map
            (fun b => b.id)) } : HotspotResult)
        = { r with
            has_los := some (check_line_of_sight_3d pos ⟨r.x, r.y, r.z⟩
              (buildings.filter (fun b => decide (b.id ≠ r.building_id))) 0.5).1,
            num_buildings_blocking := some (check_line_of_sight_3d pos ⟨r.x, r.y, r.z⟩
              (buildings.filter (fun b => decide (b.id ≠ r.building_id))) 0.5).2.1.length,
            building_attenuation_db := some (check_line_of_sight_3d pos ⟨r.x, r.y, r.z⟩
              (buildings.filter (fun b => decide (b.id ≠ r.building_id))) 0.5).2.2,
            blocking_building_ids := some ((check_line_of_sight_3d pos ⟨r.x, r.y, r.z⟩
              (buildings.filter (fun b => decide (b.id ≠ r.building_id))) 0.5).2.1.map
                (fun b => b.id)),
            e_field_free_vm := some r.e_field_vm,
            e_field_vm := r.e_field_vm * (10 : ℝ) ^ (-(check_line_of_sight_3d pos
              ⟨r.x, r.y, r.z⟩
              (buildings.filter (fun b => decide (b.id ≠ r.building_id))) 0.5).2.2 / 20),
            exceeds_limit := decide (threshold_vm ≤ r.e_field_vm * (10 : ℝ) ^
              (-(check_line_of_sight_3d pos ⟨r.x, r.y, r.z⟩
                (buildings.filter (fun b => decide (b.id ≠ r.building_id)))
                  0.5).2.2 / 20)) } := by
      simp only [apply_building_attenuation_point]
      rw [if_pos hpos]
    rw [happ]
    have hklen : 0 < ((check_line_of_sight_3d pos ⟨r.x, r.y, r.z⟩
        (buildings.filter (fun b => decide (b.id ≠ r.building_id))) 0.5).2.1.length) := by
      by_contra hc
      rw [not_lt, Nat.le_zero] at hc
      rw [hatt, hc] at hpos
      norm_num at hpos
    refine ⟨by rw [hatt], ?_, ?_⟩
    · intro hzero
      exact absurd hklen (by omega)
    · intro _
      refine ⟨rfl, by rw [hatt], ?_⟩
      exact decide_eq_true_iff
  · have happ : apply_building_attenuation_point threshold_vm ({ r with
        has_los := some (check_line_of_sight_3d pos ⟨r.x, r.y, r.z⟩
          (buildings.filter (fun b => decide (b.id ≠ r.building_id))) 0.5).1,
        num_buildings_blocking := some (check_line_of_sight_3d pos ⟨r.x, r.y, r.z⟩
          (buildings.filter (fun b => decide (b.id ≠ r.building_id))) 0.5).2.1.length,
        building_attenuation_db := some (check_line_of_sight_3d pos ⟨r.x, r.y, r.z⟩
          (buildings.filter (fun b => decide (b.id ≠ r.building_id))) 0.5).2.2,
        blocking_building_ids := some ((check_line_of_sight_3d pos ⟨r.x, r.y, r.z⟩
          (buildings.filter (fun b => decide (b.id ≠ r.building_id))) 0.5).2.1.map
            (fun b => b.id)) } : HotspotResult)
        = { r with
            has_los := some (check_line_of_sight_3d pos ⟨r.x, r.y, r.z⟩
              (buildings.filter (fun b => decide (b.id ≠ r.building_id))) 0.5).1,
            num_buildings_blocking := some (check_line_of_sight_3d pos ⟨r.x, r.y, r.z⟩
              (buildings.filter (fun b => decide (b.id ≠ r.building_id))) 0.5).2.1.length,
            building_attenuation_db := some (check_line_of_sight_3d pos ⟨r.x, r.y, r.z⟩
              (buildings.filter (fun b => decide (b.id ≠ r.building_id))) 0.5).2.2,
            blocking_building_ids := some ((check_line_of_sight_3d pos ⟨r.x, r.y, r.z⟩
              (buildings.filter (fun b => decide (b.id ≠ r.building_id))) 0.5).2.1.map
                (fun b => b.id)) } := by
      simp only [apply_building_attenuation_point]
      rw [if_neg hpos]
    rw [happ]
    refine ⟨by rw [hatt], ?_, ?_⟩
    · intro _
      exact ⟨rfl, rfl⟩
    · intro hklen
      exfalso
      apply hpos
      rw [hatt]
      have hc : (0 : ℝ) < ((check_line_of_sight_3d pos ⟨r.x, r.y, r.z⟩
          (buildings.filter (fun b => decide (b.id ≠ r.building_id)))
            0.5).2.1.length : ℝ) := by
        exact_mod_cast hklen
      linarith

/-- C2: for every result whose initial exceeds_limit is true, the LOS pass
records exactly 12 dB per blocking building; when blockers exist it saves
the original field as the free-field value, multiplies the field by
10^(-total_blocker_db/20) and re-evaluates exceeds_limit against the
threshold; with zero blockers the attenuation is 0 dB and the field is
unchanged. -/
theorem C2_los_pass_rewrites_exceeding (results : List HotspotResult)
    (antenna_position : LV95Coordinate) (buildings : List Building)
    (mast_height_offset threshold_vm : ℝ) (i : ℕ) (r : HotspotResult)
    (hr : results[i]? = some r) (hex : r.exceeds_limit = true) :
    ∃ r2 k,
      (los_pass results antenna_position buildings mast_height_offset threshold_vm)[i]?
        = some r2 ∧
      k = (check_line_of_sight_3d
            ⟨antenna_position.e, antenna_position.n, antenna_position.h + mast_height_offset⟩
            ⟨r.x, r.y, r.z⟩
            (buildings.filter (fun b => decide (b.id ≠ r.building_id))) 0.5).2.1.length ∧
      r2.building_attenuation_db = some (12 * (k : ℝ)) ∧
      (k = 0 → r2.e_field_vm = r.e_field_vm ∧ r2.exceeds_limit = true) ∧
      (0 < k → r2.e_field_free_vm = some r.e_field_vm ∧
        r2.e_field_vm = r.e_field_vm * (10 : ℝ) ^ (-(12 * (k : ℝ)) / 20) ∧
        (r2.exceeds_limit = true ↔ threshold_vm ≤ r2.e_field_vm)) := by
  have hmap : (los_pass results antenna_position buildings mast_height_offset threshold_vm)[i]?
      = some (apply_building_attenuation_point threshold_vm (add_los_info_point
          ⟨antenna_position.e, antenna_position.n, antenna_position.h + mast_height_offset⟩
          buildings r)) := by
    unfold los_pass add_los_info_to_results
    dsimp only
    rw [List.getElem?_map, List.getElem?_map, hr]
    simp [hex]
  obtain ⟨hattn, hzero, hposc⟩ := los_pass_point_spec
    ⟨antenna_position.e, antenna_position.n, antenna_position.h + mast_height_offset⟩
    buildings threshold_vm r
  refine ⟨_, _, hmap, rfl, hattn, ?_, hposc⟩
  intro hk0
  obtain ⟨he, hex2⟩ := hzero hk0
  exact ⟨he, by rw [hex2, hex]⟩

theorem C2_los_pass_rewrites_exceeding_witness :
    ∃ r2 k,
      (los_pass [hotR0] ⟨0, 0, 20⟩ [] 3 5)[0]? = some r2 ∧
      k = (check_line_of_sight_3d ⟨(0 : ℝ), (0 : ℝ), (20 : ℝ) + 3⟩
            ⟨hotR0.x, hotR0.y, hotR0.z⟩
            (([] : List Building).filter (fun b => decide (b.id ≠ hotR0.building_id)))
            0.5).2.1.length ∧
      r2.building_attenuation_db = some (12 * (k : ℝ)) ∧
      (k = 0 → r2.e_field_vm = hotR0.e_field_vm ∧ r2.exceeds_limit = true) ∧
      (0 < k → r2.e_field_free_vm = some hotR0.e_field_vm ∧
        r2.e_field_vm = hotR0.e_field_vm * (10 : ℝ) ^ (-(12 * (k : ℝ)) / 20) ∧
        (r2.exceeds_limit = true ↔ (5 : ℝ) ≤ r2.e_field_vm)) := by
  have hr : ([hotR0] : List HotspotResult)[0]? = some hotR0 := rfl
  exact C2_los_pass_rewrites_exceeding [hotR0] ⟨0, 0, 20⟩ [] 3 5 0 hotR0 hr rfl
